import Mathlib

/-!
# Bank-account teaching examples: a shallow embedding

Three source files are embedded:

* `src/CoreOOPConcept/Encapsulation.cpp` (class `BankAccount` with a `double`
  balance and a `std::string` account number), namespace `Encapsulation`;
* `src/Basic/ObjectOrientedProgramming.cpp` (class `BankAccount` with a `float`
  balance), namespace `ObjectOrientedProgramming`;
* `src/Basic/ProceduralProgramming.cpp` (file-scope `float balance` with the
  free functions `deposite` and `withdraw`), namespace `ProceduralProgramming`.

Conventions of the embedding.

* Amounts (`double`, `float`) are exact rational numbers `ℚ`: no rounding,
  no infinities, no NaN.
* A `std::string` is the list of its `char`s together with the bound
  `size() < 2^64` that the `size_t` result of `size()` imposes.
* `size_t` arithmetic is arithmetic modulo `2^64`.
* A member function takes the object as `self` and returns the updated object
  together with what it wrote to `std::cout`, as a list of `Out` items in the
  order written.
* A C++ exception that leaves a function is an `Except.error`.
-/

set_option linter.dupNamespace false

/-- One item streamed to `std::cout` with `<<`. -/
inductive Out where
  /-- A string (a literal of the source, or a `std::string` value). -/
  | str (s : List Char)
  /-- A `float` or `double` value. -/
  | num (q : ℚ)
  /-- The manipulator `endl`. -/
  | endl
  deriving DecidableEq

/-- Number of values of the type `size_t` (64 bits). -/
def SIZE_MOD : Nat := 2 ^ 64

/-- Subtraction of two `size_t` values: the result wraps modulo `2^64`. -/
def sizeSub (a b : Nat) : Nat :=
  (((a : Int) - (b : Int)) % (SIZE_MOD : Int)).toNat

/-- A `std::string`: its characters, at most `2^64 - 1` of them. -/
structure CppString where
  chars : List Char
  size_lt : chars.length < SIZE_MOD

/-- Exceptions of the standard library that the embedded code can raise. -/
inductive Exn where
  | out_of_range
  deriving DecidableEq

namespace CppString

/-- `s.length()`. -/
def length (s : CppString) : Nat := s.chars.length

/-- `s.substr(pos)` with the default count `npos`: the characters from position
`pos` to the end, or `std::out_of_range` when `pos > size()`. -/
def substr (s : CppString) (pos : Nat) : Except Exn (List Char) :=
  if pos > s.length then .error .out_of_range else .ok (s.chars.drop pos)

end CppString

namespace Encapsulation

/-- Data members of `class BankAccount` (Encapsulation.cpp, lines 14-16). -/
structure BankAccount where
  balance : ℚ
  accountNumber : CppString

/-- Constructor `BankAccount(string accountNo, double initialBalance)`
(lines 19-32). -/
def BankAccount.BankAccount (accountNo : CppString) (initialBalance : ℚ) :
    Encapsulation.BankAccount × List Out :=
  if initialBalance ≥ 0 then
    (⟨initialBalance, accountNo⟩, [])
  else
    (⟨0, accountNo⟩,
      [.str "Initial balance cant be negative, Setting to 0".toList, .endl])

/-- Member `void deposite(double amount)` (lines 34-45). -/
def BankAccount.deposite (self : Encapsulation.BankAccount) (amount : ℚ) :
    Encapsulation.BankAccount × List Out :=
  if amount > 0 then
    let balance := self.balance + amount
    (⟨balance, self.accountNumber⟩, [.str "New Balance is ".toList, .num balance, .endl])
  else
    (self, [.str "Deposite amount cant be negative".toList, .endl])

/-- Member `void withdraw(double amount)` (lines 46-57). -/
def BankAccount.withdraw (self : Encapsulation.BankAccount) (amount : ℚ) :
    Encapsulation.BankAccount × List Out :=
  if self.balance > 0 ∧ self.balance ≥ amount then
    let balance := self.balance - amount
    (⟨balance, self.accountNumber⟩, [.str "New Balance is ".toList, .num balance, .endl])
  else
    (self, [.str "insufficient  Balance".toList, .endl])

/-- Member `double getBalanace() const` (lines 59-62). -/
def BankAccount.getBalanace (self : Encapsulation.BankAccount) : ℚ :=
  self.balance

/-- Member `string getAccountNumber() const` (lines 64-67):
`"XXXX" + accountNumber.substr(accountNumber.length() - 6)`. -/
def BankAccount.getAccountNumber (self : Encapsulation.BankAccount) :
    Except Exn (List Char) := do
  let tail ← self.accountNumber.substr (sizeSub self.accountNumber.length 6)
  pure ("XXXX".toList ++ tail)

/-- A call of one of the two mutating members. -/
inductive Op where
  | deposite (amount : ℚ)
  | withdraw (amount : ℚ)

/-- One call on an account. -/
def step (acc : Encapsulation.BankAccount) : Op → Encapsulation.BankAccount × List Out
  | .deposite amount => acc.deposite amount
  | .withdraw amount => acc.withdraw amount

/-- A finite sequence of calls, in order; the outputs are concatenated. -/
def run (acc : Encapsulation.BankAccount) : List Op → Encapsulation.BankAccount × List Out
  | [] => (acc, [])
  | op :: ops =>
    let r := step acc op
    let rs := run r.1 ops
    (rs.1, r.2 ++ rs.2)

/-- The program `main` (lines 70-78): what it writes, or the exception that
ends it. -/
def main : Except Exn (List Out) := do
  let (ashish, out0) :=
    BankAccount.BankAccount ⟨"125478598745214".toList, by decide⟩ 5000
  let masked ← ashish.getAccountNumber
  let out1 := [Out.str masked, Out.endl]
  let (_, out2) := ashish.deposite 50000
  pure (out0 ++ out1 ++ out2)

end Encapsulation

namespace ObjectOrientedProgramming

/-- Data member of `class BankAccount` (ObjectOrientedProgramming.cpp, line 7). -/
structure BankAccount where
  balance : ℚ

/-- Constructor `BankAccount(float initialBalance)` (lines 10-13). -/
def BankAccount.BankAccount (initialBalance : ℚ) : ObjectOrientedProgramming.BankAccount :=
  ⟨initialBalance⟩

/-- Member `void deposit(float amount)` (lines 15-23). -/
def BankAccount.deposit (self : ObjectOrientedProgramming.BankAccount) (amount : ℚ) :
    ObjectOrientedProgramming.BankAccount × List Out :=
  if amount > 0 then
    let balance := self.balance + amount
    (⟨balance⟩,
      [.str "Deposited: ".toList, .num amount, .endl,
       .str "New balance: ".toList, .num balance, .endl])
  else
    (self, [])

/-- Member `void withdraw(float amount)` (lines 25-37). -/
def BankAccount.withdraw (self : ObjectOrientedProgramming.BankAccount) (amount : ℚ) :
    ObjectOrientedProgramming.BankAccount × List Out :=
  if amount > 0 ∧ amount ≤ self.balance then
    let balance := self.balance - amount
    (⟨balance⟩,
      [.str "Withdrawn: ".toList, .num amount, .endl,
       .str "New balance: ".toList, .num balance, .endl])
  else
    (self, [.str "Insufficient funds".toList, .endl])

/-- The program `main` (lines 40-47): the final account and what was written. -/
def main : ObjectOrientedProgramming.BankAccount × List Out :=
  let account := BankAccount.BankAccount 1000
  let (account, out1) := account.deposit 500
  let (account, out2) := account.withdraw 200
  (account, out1 ++ out2)

end ObjectOrientedProgramming

namespace ProceduralProgramming

/-- Initial value of the file-scope variable `float balance` (line 5). -/
def balance : ℚ := 1000

/-- Function `void deposite(float amount)` (lines 8-16); the file-scope
`balance` is passed in and the updated value is returned. -/
def deposite (balance : ℚ) (amount : ℚ) : ℚ × List Out :=
  if amount > 0 then
    let balance := balance + amount
    (balance,
      [.str "Deposited: ".toList, .num amount, .endl,
       .str "New balance: ".toList, .num balance, .endl])
  else
    (balance, [])

/-- Function `void withdraw(float amount)` (lines 19-31); the file-scope
`balance` is passed in and the updated value is returned. -/
def withdraw (balance : ℚ) (amount : ℚ) : ℚ × List Out :=
  if amount > 0 ∧ amount ≤ balance then
    let balance := balance - amount
    (balance,
      [.str "Withdrawn: ".toList, .num amount, .endl,
       .str "New balance: ".toList, .num balance, .endl])
  else
    (balance, [.str "Insufficient funds".toList, .endl])

/-- The program `main` (lines 33-38): the final `balance` and what was written. -/
def main : ℚ × List Out :=
  let (balance, out1) := deposite ProceduralProgramming.balance 500
  let (balance, out2) := withdraw balance 200
  (balance, out1 ++ out2)

end ProceduralProgramming

/-- A call of the deposit or of the withdraw operation of the two basic
variants. -/
inductive Call where
  | deposit (amount : ℚ)
  | withdraw (amount : ℚ)

/-- A finite sequence of calls on the object of ObjectOrientedProgramming.cpp. -/
def ObjectOrientedProgramming.run (acc : ObjectOrientedProgramming.BankAccount) :
    List Call → ObjectOrientedProgramming.BankAccount × List Out
  | [] => (acc, [])
  | .deposit amount :: calls =>
    let r := acc.deposit amount
    let rs := ObjectOrientedProgramming.run r.1 calls
    (rs.1, r.2 ++ rs.2)
  | .withdraw amount :: calls =>
    let r := acc.withdraw amount
    let rs := ObjectOrientedProgramming.run r.1 calls
    (rs.1, r.2 ++ rs.2)

/-- A finite sequence of calls on the file-scope balance of
ProceduralProgramming.cpp. -/
def ProceduralProgramming.run (balance : ℚ) : List Call → ℚ × List Out
  | [] => (balance, [])
  | .deposit amount :: calls =>
    let r := ProceduralProgramming.deposite balance amount
    let rs := ProceduralProgramming.run r.1 calls
    (rs.1, r.2 ++ rs.2)
  | .withdraw amount :: calls =>
    let r := ProceduralProgramming.withdraw balance amount
    let rs := ProceduralProgramming.run r.1 calls
    (rs.1, r.2 ++ rs.2)

/-! ## Auxiliary facts -/

/-- The account number literal of `main` in Encapsulation.cpp (line 73). -/
def Encapsulation.ashishAccountNo : CppString :=
  ⟨"125478598745214".toList, by decide⟩

theorem sizeSub_of_le (n : Nat) (h6 : 6 ≤ n) (hn : n < SIZE_MOD) : sizeSub n 6 = n - 6 := by
  unfold sizeSub SIZE_MOD at *
  omega

theorem sizeSub_of_lt (n : Nat) (h6 : n < 6) : sizeSub n 6 = n + 2 ^ 64 - 6 := by
  unfold sizeSub SIZE_MOD
  omega

theorem Encapsulation.deposite_accountNumber (acc : Encapsulation.BankAccount) (amount : ℚ) :
    (acc.deposite amount).1.accountNumber = acc.accountNumber := by
  unfold Encapsulation.BankAccount.deposite
  split_ifs <;> rfl

theorem Encapsulation.withdraw_accountNumber (acc : Encapsulation.BankAccount) (amount : ℚ) :
    (acc.withdraw amount).1.accountNumber = acc.accountNumber := by
  unfold Encapsulation.BankAccount.withdraw
  split_ifs <;> rfl

theorem Encapsulation.run_accountNumber (ops : List Encapsulation.Op) :
    ∀ acc : Encapsulation.BankAccount,
      (Encapsulation.run acc ops).1.accountNumber = acc.accountNumber := by
  induction ops with
  | nil => intro acc; rfl
  | cons op ops ih =>
    intro acc
    show (Encapsulation.run (Encapsulation.step acc op).1 ops).1.accountNumber = _
    rw [ih]
    cases op with
    | deposite amount => exact Encapsulation.deposite_accountNumber acc amount
    | withdraw amount => exact Encapsulation.withdraw_accountNumber acc amount

theorem Encapsulation.constructor_nonneg (accountNo : CppString) (initialBalance : ℚ) :
    0 ≤ (Encapsulation.BankAccount.BankAccount accountNo initialBalance).1.balance := by
  unfold Encapsulation.BankAccount.BankAccount
  split_ifs with h
  · exact h
  · exact le_refl 0

theorem Encapsulation.deposite_nonneg (acc : Encapsulation.BankAccount) (amount : ℚ)
    (h : 0 ≤ acc.balance) : 0 ≤ (acc.deposite amount).1.balance := by
  unfold Encapsulation.BankAccount.deposite
  split_ifs with ha
  · show 0 ≤ acc.balance + amount
    linarith
  · exact h

theorem Encapsulation.withdraw_nonneg (acc : Encapsulation.BankAccount) (amount : ℚ)
    (h : 0 ≤ acc.balance) : 0 ≤ (acc.withdraw amount).1.balance := by
  unfold Encapsulation.BankAccount.withdraw
  split_ifs with ha
  · show 0 ≤ acc.balance - amount
    linarith [ha.2]
  · exact h

theorem Encapsulation.run_nonneg (ops : List Encapsulation.Op) :
    ∀ acc : Encapsulation.BankAccount, 0 ≤ acc.balance →
      0 ≤ (Encapsulation.run acc ops).1.balance := by
  induction ops with
  | nil => intro acc h; exact h
  | cons op ops ih =>
    intro acc h
    show 0 ≤ (Encapsulation.run (Encapsulation.step acc op).1 ops).1.balance
    apply ih
    cases op with
    | deposite amount => exact Encapsulation.deposite_nonneg acc amount h
    | withdraw amount => exact Encapsulation.withdraw_nonneg acc amount h

/-! ## The claims -/

/-- C1. In Encapsulation.cpp, `balance >= 0` holds right after construction
with any account number and any initial balance, is preserved by every call of
`deposite` and of `withdraw` whatever the amount, and therefore holds (also as
read through `getBalanace`) after every finite sequence of calls. -/
theorem encapsulation_balance_nonneg :
    (∀ (accountNo : CppString) (initialBalance : ℚ),
      0 ≤ (Encapsulation.BankAccount.BankAccount accountNo initialBalance).1.balance) ∧
    (∀ (acc : Encapsulation.BankAccount) (amount : ℚ),
      0 ≤ acc.balance → 0 ≤ (acc.deposite amount).1.balance) ∧
    (∀ (acc : Encapsulation.BankAccount) (amount : ℚ),
      0 ≤ acc.balance → 0 ≤ (acc.withdraw amount).1.balance) ∧
    (∀ (accountNo : CppString) (initialBalance : ℚ) (ops : List Encapsulation.Op),
      0 ≤ (Encapsulation.run
        (Encapsulation.BankAccount.BankAccount accountNo initialBalance).1 ops).1.getBalanace) :=
  ⟨Encapsulation.constructor_nonneg, Encapsulation.deposite_nonneg,
    Encapsulation.withdraw_nonneg, fun accountNo initialBalance ops =>
      Encapsulation.run_nonneg ops _ (Encapsulation.constructor_nonneg accountNo initialBalance)⟩

/-- C2 (the code at the failing input). In Encapsulation.cpp, on the account of
`main` (balance 5000), `withdraw(-200)` is not rejected: the guard
`balance > 0 && balance >= amount` holds, the balance becomes 5200 and
"New Balance is 5200" is written. -/
theorem encapsulation_withdraw_negative_amount_accepted :
    ((Encapsulation.BankAccount.BankAccount Encapsulation.ashishAccountNo 5000).1.withdraw
        (-200)).1.balance = 5200 ∧
    ((Encapsulation.BankAccount.BankAccount Encapsulation.ashishAccountNo 5000).1.withdraw
        (-200)).2 = [.str "New Balance is ".toList, .num 5200, .endl] := by
  norm_num [Encapsulation.BankAccount.BankAccount, Encapsulation.BankAccount.withdraw]

/-- C4. For each of the three `withdraw` implementations (Encapsulation.cpp,
ObjectOrientedProgramming.cpp, ProceduralProgramming.cpp), when
`0 < amount <= balance` the balance after the call is the balance before minus
exactly `amount`, and the new balance is written to the output. -/
theorem withdraw_exact_all_variants (accountNo : CppString) (balance amount : ℚ)
    (hpos : 0 < amount) (hle : amount ≤ balance) :
    (((⟨balance, accountNo⟩ : Encapsulation.BankAccount).withdraw amount).1.balance
        = balance - amount ∧
      ((⟨balance, accountNo⟩ : Encapsulation.BankAccount).withdraw amount).2
        = [.str "New Balance is ".toList, .num (balance - amount), .endl]) ∧
    (((⟨balance⟩ : ObjectOrientedProgramming.BankAccount).withdraw amount).1.balance
        = balance - amount ∧
      ((⟨balance⟩ : ObjectOrientedProgramming.BankAccount).withdraw amount).2
        = [.str "Withdrawn: ".toList, .num amount, .endl,
           .str "New balance: ".toList, .num (balance - amount), .endl]) ∧
    ((ProceduralProgramming.withdraw balance amount).1 = balance - amount ∧
      (ProceduralProgramming.withdraw balance amount).2
        = [.str "Withdrawn: ".toList, .num amount, .endl,
           .str "New balance: ".toList, .num (balance - amount), .endl]) := by
  have hb : balance > 0 := lt_of_lt_of_le hpos hle
  unfold Encapsulation.BankAccount.withdraw ObjectOrientedProgramming.BankAccount.withdraw
    ProceduralProgramming.withdraw
  rw [if_pos (⟨hb, hle⟩ : balance > 0 ∧ balance ≥ amount),
    if_pos (⟨hpos, hle⟩ : amount > 0 ∧ amount ≤ balance),
    if_pos (⟨hpos, hle⟩ : amount > 0 ∧ amount ≤ balance)]
  exact ⟨⟨rfl, rfl⟩, ⟨rfl, rfl⟩, ⟨rfl, rfl⟩⟩

/-- Witness of C4: balance 1000, `withdraw(200)` gives 800 in all three
variants. -/
theorem withdraw_exact_all_variants_witness :
    ((⟨1000, Encapsulation.ashishAccountNo⟩ : Encapsulation.BankAccount).withdraw 200).1.balance
        = 800 ∧
    ((⟨1000⟩ : ObjectOrientedProgramming.BankAccount).withdraw 200).1.balance = 800 ∧
    (ProceduralProgramming.withdraw 1000 200).1 = 800 := by
  have h := withdraw_exact_all_variants Encapsulation.ashishAccountNo 1000 200
    (by norm_num) (by norm_num)
  refine ⟨?_, ?_, ?_⟩
  · rw [h.1.1]; norm_num
  · rw [h.2.1.1]; norm_num
  · rw [h.2.2.1]; norm_num

/-- C5. In Encapsulation.cpp, for every account and every amount with
`amount > balance`, `withdraw(amount)` leaves the account unchanged and writes
the message "insufficient  Balance". -/
theorem encapsulation_withdraw_over_balance (acc : Encapsulation.BankAccount) (amount : ℚ)
    (h : amount > acc.balance) :
    (acc.withdraw amount).1 = acc ∧
    (acc.withdraw amount).1.balance = acc.balance ∧
    (acc.withdraw amount).2 = [.str "insufficient  Balance".toList, .endl] := by
  unfold Encapsulation.BankAccount.withdraw
  have hn : ¬ (acc.balance > 0 ∧ acc.balance ≥ amount) := fun hc => absurd h (not_lt.mpr hc.2)
  rw [if_neg hn]
  exact ⟨rfl, rfl, rfl⟩

/-- Witness of C5: `withdraw(2000)` on balance 800 is rejected and the balance
stays 800. -/
theorem encapsulation_withdraw_over_balance_witness :
    ((⟨800, Encapsulation.ashishAccountNo⟩ : Encapsulation.BankAccount).withdraw 2000).1.balance
        = 800 ∧
    ((⟨800, Encapsulation.ashishAccountNo⟩ : Encapsulation.BankAccount).withdraw 2000).2
        = [.str "insufficient  Balance".toList, .endl] :=
  let h := encapsulation_withdraw_over_balance ⟨800, Encapsulation.ashishAccountNo⟩ 2000
    (by norm_num)
  ⟨h.2.1, h.2.2⟩

/-- C6. In Encapsulation.cpp, for every account and every amount: if
`amount > 0` then `deposite(amount)` sets the balance to `balance + amount` and
writes the new balance; if `amount <= 0` it leaves the account unchanged and
writes the rejection message. On the account of `main` (balance 5000),
`deposite(50000)` gives 55000. -/
theorem encapsulation_deposite_spec :
    (∀ (acc : Encapsulation.BankAccount) (amount : ℚ), amount > 0 →
      (acc.deposite amount).1.balance = acc.balance + amount ∧
      (acc.deposite amount).1.accountNumber = acc.accountNumber ∧
      (acc.deposite amount).2
        = [.str "New Balance is ".toList, .num (acc.balance + amount), .endl]) ∧
    (∀ (acc : Encapsulation.BankAccount) (amount : ℚ), amount ≤ 0 →
      (acc.deposite amount).1 = acc ∧
      (acc.deposite amount).2 = [.str "Deposite amount cant be negative".toList, .endl]) ∧
    ((Encapsulation.BankAccount.BankAccount Encapsulation.ashishAccountNo 5000).1.deposite
        50000).1.getBalanace = 55000 ∧
    Encapsulation.main = .ok
      [.str "XXXX745214".toList, .endl, .str "New Balance is ".toList, .num 55000, .endl] := by
  refine ⟨fun acc amount h => ?_, fun acc amount h => ?_, ?_, ?_⟩
  · unfold Encapsulation.BankAccount.deposite
    rw [if_pos h]
    exact ⟨rfl, rfl, rfl⟩
  · unfold Encapsulation.BankAccount.deposite
    rw [if_neg (not_lt.mpr h)]
    exact ⟨rfl, rfl⟩
  · norm_num [Encapsulation.BankAccount.BankAccount, Encapsulation.BankAccount.deposite,
      Encapsulation.BankAccount.getBalanace]
  · have hs : sizeSub Encapsulation.ashishAccountNo.length 6 = 9 := by decide
    have hd : Encapsulation.ashishAccountNo.chars.drop 9 = "745214".toList := by decide
    have hl : ¬ (9 > Encapsulation.ashishAccountNo.length) := by decide
    have h0 : ((5000 : ℚ) ≥ 0) := by norm_num
    have h1 : ((50000 : ℚ) > 0) := by norm_num
    simp only [Encapsulation.main, Encapsulation.BankAccount.BankAccount, if_pos h0,
      Encapsulation.BankAccount.getAccountNumber, CppString.substr,
      Encapsulation.BankAccount.deposite, if_pos h1]
    show (do
      let tail ← (if sizeSub Encapsulation.ashishAccountNo.length 6
          > Encapsulation.ashishAccountNo.length then Except.error Exn.out_of_range
        else Except.ok (Encapsulation.ashishAccountNo.chars.drop
          (sizeSub Encapsulation.ashishAccountNo.length 6)))
      let masked ← pure ("XXXX".toList ++ tail)
      pure ([] ++ [Out.str masked, Out.endl]
        ++ [Out.str "New Balance is ".toList, Out.num (5000 + 50000), Out.endl])) = _
    rw [hs, if_neg hl, hd]
    norm_num

/-- C7. For every account number of at least 6 characters, `getAccountNumber()`
of an account created with it returns "XXXX" followed by the last 6 characters
of the account number, a string of 10 characters, whatever the initial balance
and whatever deposits and withdrawals were made since. -/
theorem getAccountNumber_masks_last_six (accountNo : CppString) (h : 6 ≤ accountNo.length) :
    (accountNo.chars.drop (accountNo.length - 6)).length = 6 ∧
    (accountNo.chars.drop (accountNo.length - 6)) <:+ accountNo.chars ∧
    ∀ (initialBalance : ℚ) (ops : List Encapsulation.Op),
      (Encapsulation.run (Encapsulation.BankAccount.BankAccount accountNo initialBalance).1
          ops).1.getAccountNumber
        = .ok ("XXXX".toList ++ accountNo.chars.drop (accountNo.length - 6)) ∧
      ("XXXX".toList ++ accountNo.chars.drop (accountNo.length - 6)).length = 10 := by
  have hlen : (accountNo.chars.drop (accountNo.length - 6)).length = 6 := by
    unfold CppString.length at *
    rw [List.length_drop]
    omega
  refine ⟨hlen, List.drop_suffix _ _, fun initialBalance ops => ⟨?_, ?_⟩⟩
  · have hacc : (Encapsulation.run
        (Encapsulation.BankAccount.BankAccount accountNo initialBalance).1 ops).1.accountNumber
        = accountNo := by
      rw [Encapsulation.run_accountNumber]
      unfold Encapsulation.BankAccount.BankAccount
      split_ifs <;> rfl
    unfold Encapsulation.BankAccount.getAccountNumber CppString.substr
    rw [hacc, sizeSub_of_le accountNo.length h accountNo.size_lt,
      if_neg (by omega : ¬ (accountNo.length - 6 > accountNo.length))]
    rfl
  · rw [List.length_append, hlen]
    rfl

/-- Witness of C7: for "125478598745214" the result is "XXXX745214". -/
theorem getAccountNumber_masks_last_six_witness :
    6 ≤ Encapsulation.ashishAccountNo.length ∧
    (Encapsulation.BankAccount.BankAccount Encapsulation.ashishAccountNo 5000).1.getAccountNumber
      = .ok "XXXX745214".toList ∧
    "XXXX745214".toList.length = 10 := by
  have h := getAccountNumber_masks_last_six Encapsulation.ashishAccountNo (by decide)
  have hd : Encapsulation.ashishAccountNo.chars.drop (Encapsulation.ashishAccountNo.length - 6)
      = "745214".toList := by decide
  refine ⟨by decide, ?_, by decide⟩
  have h1 := (h.2.2 5000 []).1
  rw [hd] at h1
  exact h1

/-- C8. Constructing an account of Encapsulation.cpp is total and keeps the
account number unchanged; if `initialBalance < 0` the balance read by
`getBalanace` is 0 and the diagnostic is written; if `initialBalance >= 0` the
balance read is `initialBalance` and nothing is written. -/
theorem encapsulation_constructor_spec (accountNo : CppString) (initialBalance : ℚ) :
    (Encapsulation.BankAccount.BankAccount accountNo initialBalance).1.accountNumber
      = accountNo ∧
    (initialBalance < 0 →
      (Encapsulation.BankAccount.BankAccount accountNo initialBalance).1.getBalanace = 0 ∧
      (Encapsulation.BankAccount.BankAccount accountNo initialBalance).2
        = [.str "Initial balance cant be negative, Setting to 0".toList, .endl]) ∧
    (initialBalance ≥ 0 →
      (Encapsulation.BankAccount.BankAccount accountNo initialBalance).1.getBalanace
        = initialBalance ∧
      (Encapsulation.BankAccount.BankAccount accountNo initialBalance).2 = []) := by
  unfold Encapsulation.BankAccount.BankAccount
  by_cases h : initialBalance ≥ 0
  · rw [if_pos h]
    exact ⟨rfl, fun hneg => absurd h (not_le.mpr hneg), fun _ => ⟨rfl, rfl⟩⟩
  · rw [if_neg h]
    exact ⟨rfl, fun _ => ⟨rfl, rfl⟩, fun hge => absurd hge h⟩

/-- C9. For an account number of fewer than 6 characters (the empty one
included), the start position `length() - 6` wraps to `length + 2^64 - 6`, which
exceeds the length, so `substr` and with it `getAccountNumber()` end in
`std::out_of_range`; `getAccountNumber()` returns a value if and only if the
account number has at least 6 characters. -/
theorem getAccountNumber_short_identifier (acc : Encapsulation.BankAccount) :
    (acc.accountNumber.length < 6 →
      sizeSub acc.accountNumber.length 6 = acc.accountNumber.length + 2 ^ 64 - 6 ∧
      sizeSub acc.accountNumber.length 6 > acc.accountNumber.length ∧
      acc.accountNumber.substr (sizeSub acc.accountNumber.length 6) = .error .out_of_range ∧
      acc.getAccountNumber = .error .out_of_range) ∧
    ((∃ masked, acc.getAccountNumber = .ok masked) ↔ 6 ≤ acc.accountNumber.length) := by
  have hshort : acc.accountNumber.length < 6 →
      sizeSub acc.accountNumber.length 6 > acc.accountNumber.length := by
    intro hlt
    rw [sizeSub_of_lt _ hlt]
    omega
  have herr : acc.accountNumber.length < 6 →
      acc.accountNumber.substr (sizeSub acc.accountNumber.length 6)
        = .error .out_of_range := by
    intro hlt
    unfold CppString.substr
    rw [if_pos (hshort hlt)]
  refine ⟨fun hlt => ⟨sizeSub_of_lt _ hlt, hshort hlt, herr hlt, ?_⟩, ⟨?_, ?_⟩⟩
  · unfold Encapsulation.BankAccount.getAccountNumber
    rw [herr hlt]
    rfl
  · rintro ⟨masked, hm⟩
    by_contra hnot
    unfold Encapsulation.BankAccount.getAccountNumber at hm
    rw [herr (not_le.mp hnot)] at hm
    cases hm
  · intro hge
    refine ⟨"XXXX".toList ++ acc.accountNumber.chars.drop (acc.accountNumber.length - 6), ?_⟩
    unfold Encapsulation.BankAccount.getAccountNumber CppString.substr
    rw [sizeSub_of_le _ hge acc.accountNumber.size_lt,
      if_neg (by omega : ¬ (acc.accountNumber.length - 6 > acc.accountNumber.length))]
    rfl

/-- C10. Started from the same balance and given the same finite sequence of
deposit and withdraw calls, the object of ObjectOrientedProgramming.cpp and the
file-scope balance of ProceduralProgramming.cpp end with the same balance and
write the same output; so do the two `main` programs, which both end at 1300. -/
theorem procedural_object_equivalent (calls : List Call) (balance : ℚ) :
    ((ObjectOrientedProgramming.run (ObjectOrientedProgramming.BankAccount.BankAccount balance)
        calls).1.balance = (ProceduralProgramming.run balance calls).1 ∧
      (ObjectOrientedProgramming.run (ObjectOrientedProgramming.BankAccount.BankAccount balance)
        calls).2 = (ProceduralProgramming.run balance calls).2) ∧
    (ObjectOrientedProgramming.main.1.balance = 1300 ∧ ProceduralProgramming.main.1 = 1300 ∧
      ObjectOrientedProgramming.main.2 = ProceduralProgramming.main.2) := by
  refine ⟨?_, ?_⟩
  case refine_2 =>
    norm_num [ObjectOrientedProgramming.main, ProceduralProgramming.main,
      ProceduralProgramming.balance, ObjectOrientedProgramming.BankAccount.BankAccount,
      ObjectOrientedProgramming.BankAccount.deposit,
      ObjectOrientedProgramming.BankAccount.withdraw, ProceduralProgramming.deposite,
      ProceduralProgramming.withdraw]
  induction calls generalizing balance with
  | nil => exact ⟨rfl, rfl⟩
  | cons call calls ih =>
    cases call with
    | deposit amount =>
      have hb : ((ObjectOrientedProgramming.BankAccount.BankAccount balance).deposit amount).1
          = ObjectOrientedProgramming.BankAccount.BankAccount
              (ProceduralProgramming.deposite balance amount).1 := by
        unfold ObjectOrientedProgramming.BankAccount.deposit ProceduralProgramming.deposite
          ObjectOrientedProgramming.BankAccount.BankAccount
        split_ifs <;> rfl
      have ho : ((ObjectOrientedProgramming.BankAccount.BankAccount balance).deposit amount).2
          = (ProceduralProgramming.deposite balance amount).2 := by
        unfold ObjectOrientedProgramming.BankAccount.deposit ProceduralProgramming.deposite
          ObjectOrientedProgramming.BankAccount.BankAccount
        split_ifs <;> rfl
      unfold ObjectOrientedProgramming.run ProceduralProgramming.run
      simp only [hb, ho, (ih _).1, (ih _).2, and_self]
    | withdraw amount =>
      have hb : ((ObjectOrientedProgramming.BankAccount.BankAccount balance).withdraw amount).1
          = ObjectOrientedProgramming.BankAccount.BankAccount
              (ProceduralProgramming.withdraw balance amount).1 := by
        unfold ObjectOrientedProgramming.BankAccount.withdraw ProceduralProgramming.withdraw
          ObjectOrientedProgramming.BankAccount.BankAccount
        split_ifs <;> rfl
      have ho : ((ObjectOrientedProgramming.BankAccount.BankAccount balance).withdraw amount).2
          = (ProceduralProgramming.withdraw balance amount).2 := by
        unfold ObjectOrientedProgramming.BankAccount.withdraw ProceduralProgramming.withdraw
          ObjectOrientedProgramming.BankAccount.BankAccount
        split_ifs <;> rfl
      unfold ObjectOrientedProgramming.run ProceduralProgramming.run
      simp only [hb, ho, (ih _).1, (ih _).2, and_self]
